import Mathlib

/- Verification development for the pipeline telemetry engine implemented in
   frontend/src/contexts/SensorContext.jsx.

   The engine is embedded shallowly: JavaScript numbers are modelled as
   rationals (ℚ), `undefined`-able record fields as `Option ℚ`, and the
   per-tick random draws `Math.random()` as explicit rational inputs.
   `Number.prototype.toFixed` followed by `parseFloat` is modelled as
   rounding half-up to the given number of decimals. -/

namespace Pipeline

/-- One named degradation driver delivered by the backend health feed
(`details[segment].drivers[i].name` in the source). -/
structure Driver where
  name : String
deriving DecidableEq

/-- The per-segment record of a backend `system_health` update.  Both fields may
be absent in the delivered JSON, hence `Option`. -/
structure SegDetails where
  health_score : Option ℚ := none
  drivers : Option (List Driver) := none
deriving DecidableEq

/-- The status strings emitted by the engine. -/
inductive Status
  | normal
  | warning
  | critical
deriving DecidableEq

/-- A sensor node's mutable reading snapshot.  `INITIAL_SENSORS` in the source
has no `acoustic` field, so a first read of `sensor.acoustic` yields
`undefined`; that field is therefore `Option ℚ`.  Static display-only fields
(name, location, lat, lng) carry no behaviour and are omitted. -/
structure Sensor where
  id : String
  pressure : ℚ
  flow : ℚ
  temp : ℚ
  vibration : ℚ
  corrosion : ℚ
  acoustic : Option ℚ := none
  status : Status := Status.normal
deriving DecidableEq

/-- JavaScript falsy-coalescing `x || dflt` applied to an optional number:
both a missing value and the number `0` fall through to the default.  This is
the exact semantics of `currentHealth[segmentId] || 100` and
`details.health_score || 100` in the source (NaN is not modelled). -/
def jsOr (v : Option ℚ) (dflt : ℚ) : ℚ :=
  match v with
  | none => dflt
  | some x => if x = 0 then dflt else x

/-- Substring test on character lists, mirroring JavaScript
`String.prototype.includes`. -/
def listContainsSub (needle : List Char) : List Char → Bool
  | [] => needle.isEmpty
  | c :: t => needle.isPrefixOf (c :: t) || listContainsSub needle t

/-- JavaScript `hay.toLowerCase().includes(needle)` as used by `hasDriver`
(the needle literals in the source are already lower-case). -/
def lowerContains (needle hay : String) : Bool :=
  listContainsSub needle.toList (hay.toList.map Char.toLower)

/-- Source `hasDriver(drv)`: true iff the latest health details for the
segment list a driver whose lower-cased name contains `drv`. -/
def hasDriver (details : String → Option SegDetails) (segmentId drv : String) : Bool :=
  match details segmentId with
  | none => false
  | some sd =>
    match sd.drivers with
    | none => false
    | some ds => ds.any fun d => lowerContains drv d.name

/-- Segment lookup of the source: default `'A-B'`, overridden for
`SENSOR_B`/`SENSOR_C`, and both `SENSOR_D` and `SENSOR_E` map to `'D-E'`. -/
def segmentIdOf (id : String) : String :=
  if id = "SENSOR_B" then "B-C"
  else if id = "SENSOR_C" then "C-D"
  else if id = "SENSOR_D" || id = "SENSOR_E" then "D-E"
  else "A-B"

/-- Source `const health = currentHealth[segmentId] || 100`. -/
def healthOf (currentHealth : String → Option ℚ) (segmentId : String) : ℚ :=
  jsOr (currentHealth segmentId) 100

/-- Source `const damage = (100 - health) / 100`. -/
def damageOf (health : ℚ) : ℚ := (100 - health) / 100

/-- Source `isLeak = hasDriver('leak') || hasDriver('failure')`. -/
def isLeakOf (details : String → Option SegDetails) (segmentId : String) : Bool :=
  hasDriver details segmentId "leak" || hasDriver details segmentId "failure"

/-- Source `isBlockage = hasDriver('clog') || hasDriver('buildup')`. -/
def isBlockageOf (details : String → Option SegDetails) (segmentId : String) : Bool :=
  hasDriver details segmentId "clog" || hasDriver details segmentId "buildup"

/-- Source `isCorrosion = hasDriver('corrosion')`. -/
def isCorrosionOf (details : String → Option SegDetails) (segmentId : String) : Bool :=
  hasDriver details segmentId "corrosion"

/-- Source `const frictionLoss = 0.8`. -/
def frictionLoss : ℚ := 8 / 10

/-- The leak pressure drop actually subtracted from the stream: set to
`damage * 25` when leak-like or critical, then overridden to `0` when
blockage-like (the source's second `if` reassigns `leakPressureDrop = 0`). -/
def leakPressureDropOf (isLeak isCritical isBlockage : Bool) (damage : ℚ) : ℚ :=
  if isBlockage then 0
  else if isLeak || isCritical then damage * 25 else 0

/-- Source `leakFlowLoss = damage * 40` when leak-like or critical; never
touched by the blockage branch. -/
def leakFlowLossOf (isLeak isCritical : Bool) (damage : ℚ) : ℚ :=
  if isLeak || isCritical then damage * 40 else 0

/-- The virtual fluid stream carried from node to node. -/
structure Stream where
  pressure : ℚ
  flow : ℚ
deriving DecidableEq

/-- One node's effect on the stream: the blockage backpressure
`streamPressure += damage * 5` is applied before the clamped subtraction
`Math.max(0, streamPressure - frictionLoss - leakPressureDrop)`, and flow
is clamped after `streamFlow - leakFlowLoss`. -/
def streamStep (isLeak isCritical isBlockage : Bool) (damage : ℚ) (st : Stream) : Stream :=
  { pressure := max 0 ((if isBlockage then st.pressure + damage * 5 else st.pressure)
      - frictionLoss - leakPressureDropOf isLeak isCritical isBlockage damage)
    flow := max 0 (st.flow - leakFlowLossOf isLeak isCritical damage) }

/-- Source local vibration target: base `0.02`, plus `damage * 0.8` when a
vibration driver is present or health is critical, plus `0.3` when
blockage-like. -/
def vibTarget (hasVib isCritical isBlockage : Bool) (damage : ℚ) : ℚ :=
  (if hasVib || isCritical then 2 / 100 + damage * (8 / 10) else 2 / 100)
  + (if isBlockage then 3 / 10 else 0)

/-- Source local corrosion target: base `0.01`, plus `damage * 0.6` when a
corrosion driver is present or health is critical. -/
def corrTarget (isCorrosion isCritical : Bool) (damage : ℚ) : ℚ :=
  if isCorrosion || isCritical then 1 / 100 + damage * (6 / 10) else 1 / 100

/-- Source local acoustic target: base `40`, plus `damage * 50` when
leak-like, plus `damage * 20` when blockage-like. -/
def acousticTarget (isLeak isBlockage : Bool) (damage : ℚ) : ℚ :=
  40 + (if isLeak then damage * 50 else 0) + (if isBlockage then damage * 20 else 0)

/-- Source status assignment: start at `'normal'`, overwrite with `'warning'`
when `isWarning`, then overwrite with `'critical'` when `isCritical`. -/
def statusCode (isWarning isCritical : Bool) : Status :=
  let s := Status.normal
  let s := if isWarning then Status.warning else s
  if isCritical then Status.critical else s

/-- The five `Math.random()` draws one node consumes per tick, each in
`[0, 1]` (taken as inputs of the embedding). -/
structure Rand where
  rP : ℚ
  rF : ℚ
  rV : ℚ
  rA : ℚ
  rT : ℚ
deriving DecidableEq

/-- Source `noiseP = (Math.random() - 0.5) * (0.8 + chaos * 3)`. -/
def noiseP (chaos r : ℚ) : ℚ := (r - 1 / 2) * (8 / 10 + chaos * 3)

/-- Source `noiseF = (Math.random() - 0.5) * (2.0 + chaos * 8)`. -/
def noiseF (chaos r : ℚ) : ℚ := (r - 1 / 2) * (2 + chaos * 8)

/-- Source `noiseV = Math.random() * (0.005 + chaos * 0.05)`. -/
def noiseV (chaos r : ℚ) : ℚ := r * (5 / 1000 + chaos * (5 / 100))

/-- Source `noiseA = (Math.random() - 0.5) * (0.5 + chaos * 2)`. -/
def noiseA (chaos r : ℚ) : ℚ := (r - 1 / 2) * (1 / 2 + chaos * 2)

/-- Source smoothing helper.  The guard `if (!prev && prev !== 0) return
target` returns the target exactly when the previous value is absent
(`undefined`); a present number, including `0`, is smoothed with fixed
weights 0.9/0.1. -/
def smooth : Option ℚ → ℚ → ℚ
  | none, target => target
  | some prev, target => prev * (9 / 10) + target * (1 / 10)

/-- JavaScript `parseFloat(x.toFixed(n))` modelled as rounding half-up to `n`
decimal places. -/
def toFixed (n : Nat) (q : ℚ) : ℚ := (⌊q * 10 ^ n + 1 / 2⌋ : ℤ) / 10 ^ n

/-- One iteration of the source's `prevSensors.map` body: consumes the stream
state left by the upstream nodes, produces the node's new reading and the
stream state handed to the next node. -/
def cascadeStep (currentHealth : String → Option ℚ) (details : String → Option SegDetails)
    (rnd : Rand) (st : Stream) (sensor : Sensor) : Sensor × Stream :=
  let segmentId := segmentIdOf sensor.id
  let health := healthOf currentHealth segmentId
  let isCritical := decide (health < 75)
  let isWarning := decide (health < 90)
  let damage := damageOf health
  let isLeak := isLeakOf details segmentId
  let isBlockage := isBlockageOf details segmentId
  let chaos := damage
  let st' := streamStep isLeak isCritical isBlockage damage st
  ({ sensor with
      pressure := toFixed 2 (max 0 (smooth (some sensor.pressure)
        (st'.pressure + noiseP chaos rnd.rP)))
      flow := toFixed 1 (max 0 (smooth (some sensor.flow)
        (st'.flow + noiseF chaos rnd.rF)))
      temp := toFixed 1 (smooth (some sensor.temp)
        (32 + damage * 5 + (rnd.rT - 1 / 2)))
      vibration := toFixed 3 (smooth (some sensor.vibration)
        (vibTarget (hasDriver details segmentId "vibration") isCritical isBlockage damage
          + noiseV chaos rnd.rV))
      acoustic := some (toFixed 1 (smooth sensor.acoustic
        (acousticTarget isLeak isBlockage damage + noiseA chaos rnd.rA)))
      corrosion := toFixed 4 (corrTarget (isCorrosionOf details segmentId) isCritical damage)
      status := statusCode isWarning isCritical },
    st')

/-- Sequential propagation over the node list, threading the stream state and
the per-node random draws (`rnd i` is node `i`'s draw). -/
def cascadeRun (ch : String → Option ℚ) (det : String → Option SegDetails)
    (rnd : Nat → Rand) : Stream → Nat → List Sensor → List (Sensor × Stream)
  | _, _, [] => []
  | st, i, s :: rest =>
    let p := cascadeStep ch det (rnd i) st s
    p :: cascadeRun ch det rnd p.2 (i + 1) rest

/-- Source pump constants: `streamPressure = 80.0`, `streamFlow = 355.0`. -/
def sourceStream : Stream := { pressure := 80, flow := 355 }

/-- The engine's per-tick sensor update `simulateFluidMetrics`. -/
def simulateFluidMetrics (ch : String → Option ℚ) (det : String → Option SegDetails)
    (rnd : Nat → Rand) (prevSensors : List Sensor) : List Sensor :=
  (cascadeRun ch det rnd sourceStream 0 prevSensors).map Prod.fst

/-- The internal stream state as left by each node in turn (the value that
propagates to the next node). -/
def streamsOf (ch : String → Option ℚ) (det : String → Option SegDetails)
    (rnd : Nat → Rand) (prevSensors : List Sensor) : List Stream :=
  (cascadeRun ch det rnd sourceStream 0 prevSensors).map Prod.snd

/-- First entry of the source's `INITIAL_SENSORS` table. -/
def sensorA0 : Sensor :=
  { id := "SENSOR_A", pressure := 75, flow := 350, temp := 32,
    vibration := 2 / 100, corrosion := 1 / 100 }

/-- Second entry of `INITIAL_SENSORS`. -/
def sensorB0 : Sensor :=
  { id := "SENSOR_B", pressure := 74, flow := 350, temp := 32,
    vibration := 2 / 100, corrosion := 1 / 100 }

/-- Third entry of `INITIAL_SENSORS`. -/
def sensorC0 : Sensor :=
  { id := "SENSOR_C", pressure := 73, flow := 350, temp := 32,
    vibration := 2 / 100, corrosion := 1 / 100 }

/-- Fourth entry of `INITIAL_SENSORS`. -/
def sensorD0 : Sensor :=
  { id := "SENSOR_D", pressure := 72, flow := 350, temp := 32,
    vibration := 2 / 100, corrosion := 1 / 100 }

/-- Fifth entry of `INITIAL_SENSORS`. -/
def sensorE0 : Sensor :=
  { id := "SENSOR_E", pressure := 71, flow := 350, temp := 32,
    vibration := 2 / 100, corrosion := 1 / 100 }

/-- Source `INITIAL_SENSORS` topology (display-only fields omitted). -/
def INITIAL_SENSORS : List Sensor := [sensorA0, sensorB0, sensorC0, sensorD0, sensorE0]

instance : Inhabited Sensor := ⟨sensorA0⟩

/-- One entry of the live-chart history buffer, built from the first node's
reading (`currentSensors[0]`) plus a timestamp. -/
structure HistoryEntry where
  timestamp : String
  pressure : ℚ
  flow : ℚ
  temp : ℚ
deriving DecidableEq

/-- JavaScript `Array.prototype.slice(-n)`: the last `n` elements (the whole
list when it is shorter than `n`). -/
def jsSliceLast {α : Type} (n : Nat) (l : List α) : List α := l.drop (l.length - n)

/-- Source `updateHistory`: append one entry derived from the first sensor and
keep the last 30 entries (`updated.slice(-30)`).  An empty sensor list would
make `currentSensors[0].pressure` throw in JavaScript, modelled as `none`. -/
def updateHistory (prev : List HistoryEntry) (currentSensors : List Sensor)
    (ts : String) : Option (List HistoryEntry) :=
  match currentSensors.head? with
  | none => none
  | some s0 =>
    some (jsSliceLast 30 (prev ++
      [{ timestamp := ts, pressure := s0.pressure, flow := s0.flow, temp := s0.temp }]))

/-- Source initial run state: `useState(true)` for `isLive` — the simulation
is live from process start. -/
def initialIsLive : Bool := true

/-- The periodic 1s interval body: `if (isLiveRef.current) simulateFluidMetrics()`;
a tick is a no-op on the sensor state unless the run state is live. -/
def tickGate (isLive : Bool) (ch : String → Option ℚ) (det : String → Option SegDetails)
    (rnd : Nat → Rand) (sensors : List Sensor) : List Sensor :=
  if isLive then simulateFluidMetrics ch det rnd sensors else sensors

/-- Run-state controller state: the `isLive` flag plus an optional pending
`setTimeout` countdown (in 1s time units) left by a resume request. -/
structure RunCtl where
  isLive : Bool
  pending : Option Nat
deriving DecidableEq

/-- The `runDiagnostics` resume path delays 6000 ms = 6 tick periods. -/
def startDelay : Nat := 6

/-- Source `runDiagnostics` toggle: when live, pause immediately (the call
returns `'paused'` at once); when paused, schedule `setIsLive(true)` after
`startDelay` units — the string is the value the returned promise resolves
with when that scheduled transition fires. -/
def runDiagnostics (s : RunCtl) : RunCtl × String :=
  if s.isLive then ({ s with isLive := false }, "paused")
  else ({ s with pending := some startDelay }, "started")

/-- One time unit elapsing: a pending resume timer counts down and fires
`setIsLive(true)` when it reaches its deadline. -/
def advance (s : RunCtl) : RunCtl :=
  match s.pending with
  | none => s
  | some 1 => { isLive := true, pending := none }
  | some (k + 2) => { s with pending := some (k + 1) }
  | some 0 => s

/-- `k` time units elapsing with no further control calls. -/
def advanceN (s : RunCtl) : Nat → RunCtl
  | 0 => s
  | n + 1 => advance (advanceN s n)

/-- Source `handleBackendUpdate` segment mapping:
`segHealth[seg] = details.health_score || 100`. -/
def ingestScore (d : SegDetails) : ℚ := jsOr d.health_score 100

/-- Backend health map with no data for any segment (all defaults apply). -/
def chNone : String → Option ℚ := fun _ => none

/-- Backend details map with no data for any segment. -/
def detNone : String → Option SegDetails := fun _ => none

/-- Health map of the spec's example scenario: segment C-D at health 40,
everything else missing (defaulting to 100). -/
def chClog : String → Option ℚ := fun seg => if seg = "C-D" then some 40 else none

/-- Details map of the spec's example scenario: segment C-D carries one driver
named "Clogging" (blockage-like via the "clog" keyword). -/
def detClog : String → Option SegDetails :=
  fun seg =>
    if seg = "C-D" then some { drivers := some [{ name := "Clogging" }] } else none

/-- Random draws that make every noise term vanish (`Math.random() = 0.5` for
the centred noises, `0` for the one-sided vibration noise). -/
def rnd0 : Nat → Rand := fun _ => { rP := 1 / 2, rF := 1 / 2, rV := 0, rA := 1 / 2, rT := 1 / 2 }

/-- The engine's vibration target as a function of the damage factor `d`:
health `h` and `d = (100 - h)/100` determine each other, and `h < 75` is
exactly `1/4 < d`. -/
def vibTargetOfDamage (hasVib isBlockage : Bool) (d : ℚ) : ℚ :=
  vibTarget hasVib (decide (1 / 4 < d)) isBlockage d

/-- The engine's corrosion target as a function of the damage factor. -/
def corrTargetOfDamage (isCorrosion : Bool) (d : ℚ) : ℚ :=
  corrTarget isCorrosion (decide (1 / 4 < d)) d

/-- Sensor A's initial record with a previous corrosion reading of `1`. -/
def sensorA1 : Sensor := { sensorA0 with corrosion := 1 }

/-- Sensor A's initial record with a previous corrosion reading of `2`. -/
def sensorA2 : Sensor := { sensorA0 with corrosion := 2 }

/-- Helper: the status emitted by one cascade step, as a function of the
segment health alone. -/
theorem cascadeStep_status (ch : String → Option ℚ) (det : String → Option SegDetails)
    (rnd : Rand) (st : Stream) (s : Sensor) :
    (cascadeStep ch det rnd st s).1.status =
      if healthOf ch (segmentIdOf s.id) < 75 then Status.critical
      else if healthOf ch (segmentIdOf s.id) < 90 then Status.warning
      else Status.normal := by
  by_cases h75 : healthOf ch (segmentIdOf s.id) < 75
  · simp [cascadeStep, statusCode, h75]
  · by_cases h90 : healthOf ch (segmentIdOf s.id) < 90
    · simp [cascadeStep, statusCode, h75, h90]
    · simp [cascadeStep, statusCode, h75, h90]

/-- Helper: statuses across a whole cascade run, independent of the stream
state and of the random draws. -/
theorem cascadeRun_status (ch : String → Option ℚ) (det : String → Option SegDetails)
    (rnd : Nat → Rand) :
    ∀ (st : Stream) (i : Nat) (prev : List Sensor),
      ((cascadeRun ch det rnd st i prev).map Prod.fst).map Sensor.status
        = prev.map fun s =>
            if healthOf ch (segmentIdOf s.id) < 75 then Status.critical
            else if healthOf ch (segmentIdOf s.id) < 90 then Status.warning
            else Status.normal := by
  intro st i prev
  induction prev generalizing st i with
  | nil => simp [cascadeRun]
  | cons s rest ih => simp [cascadeRun, cascadeStep_status, ih]

/-- C5: on every tick, each node's emitted status is a function of its
outgoing segment's health score alone — critical below 75, else warning
below 90, else normal — for any drivers, noise, stream state and previous
readings. -/
theorem status_determined_by_health (ch : String → Option ℚ)
    (det : String → Option SegDetails) (rnd : Nat → Rand) (prev : List Sensor) :
    (simulateFluidMetrics ch det rnd prev).map Sensor.status
      = prev.map fun s =>
          if healthOf ch (segmentIdOf s.id) < 75 then Status.critical
          else if healthOf ch (segmentIdOf s.id) < 90 then Status.warning
          else Status.normal := by
  simpa [simulateFluidMetrics] using cascadeRun_status ch det rnd sourceStream 0 prev

/-- C3 counterexample: the run state starts live (`useState(true)`), and the
very first periodic tick already changes the published readings (sensor A's
pressure moves from 75 to 75.42 under zero noise), contradicting a Paused
initial state with no-op ticks. -/
theorem initial_state_is_live :
    initialIsLive = true ∧
    (tickGate initialIsLive chNone detNone rnd0 INITIAL_SENSORS).head?.map Sensor.pressure
      = some (7542 / 100) ∧
    INITIAL_SENSORS.head?.map Sensor.pressure = some 75 ∧
    (7542 / 100 : ℚ) ≠ 75 := by
  refine ⟨rfl, ?_, by norm_num [INITIAL_SENSORS, sensorA0], by norm_num⟩
  simp only [tickGate, initialIsLive, if_true, simulateFluidMetrics, cascadeRun,
    INITIAL_SENSORS, List.map, List.head?, Option.map, cascadeStep]
  norm_num [sensorA0, segmentIdOf, healthOf, chNone, detNone, jsOr, damageOf,
    hasDriver, isLeakOf, isBlockageOf, streamStep, leakPressureDropOf,
    leakFlowLossOf, frictionLoss, sourceStream, smooth, noiseP, rnd0, toFixed,
    Int.floor_eq_iff]

/-- C3 (amended): the run-state controller starts in the Running state
(`isLive = true`), so ticks produce updates from process start; the periodic
tick is a no-op exactly when the state is paused. -/
theorem initial_live_tick_gating :
    initialIsLive = true ∧
    ∀ (ch : String → Option ℚ) (det : String → Option SegDetails)
      (rnd : Nat → Rand) (sensors : List Sensor),
      tickGate false ch det rnd sensors = sensors :=
  ⟨rfl, fun _ _ _ _ => rfl⟩

/-- C4 counterexample: the published corrosion value ignores the previous
reading entirely — previous corrosion 1 and 2 both yield 0.01 on the next
tick (perfect health, zero noise), while the claimed filter
`previous * 0.9 + (target + noise) * 0.1` would keep 90% of the old value. -/
theorem corrosion_bypasses_smoothing :
    (simulateFluidMetrics chNone detNone rnd0 [sensorA1]).map Sensor.corrosion
      = [1 / 100] ∧
    (simulateFluidMetrics chNone detNone rnd0 [sensorA2]).map Sensor.corrosion
      = [1 / 100] ∧
    (1 : ℚ) * (9 / 10) + (1 / 100) * (1 / 10) ≠ 1 / 100 ∧
    (2 : ℚ) * (9 / 10) + (1 / 100) * (1 / 10) ≠ 1 / 100 := by
  refine ⟨?_, ?_, by norm_num, by norm_num⟩ <;>
  · simp only [simulateFluidMetrics, cascadeRun, List.map, cascadeStep]
    norm_num [sensorA1, sensorA2, sensorA0, segmentIdOf, healthOf, chNone, detNone,
      jsOr, damageOf, hasDriver, isCorrosionOf, corrTarget, toFixed, Int.floor_eq_iff]

/-- C4 (amended): pressure, flow, temperature, vibration and acoustic follow
`next = previous * 0.9 + (target + noise) * 0.1` (target used directly when no
previous value exists), with the published value rounded — but corrosion is
exempt: it is published as the rounded raw target, with no noise term and no
dependence on its previous value. -/
theorem smoothing_formula_per_metric :
    (∀ p t : ℚ, smooth (some p) t = p * (9 / 10) + t * (1 / 10)) ∧
    (∀ t : ℚ, smooth none t = t) ∧
    (∀ (ch : String → Option ℚ) (det : String → Option SegDetails) (rnd : Rand)
       (st : Stream) (s : Sensor) (c : ℚ),
      (cascadeStep ch det rnd st s).1.corrosion
        = (cascadeStep ch det rnd st { s with corrosion := c }).1.corrosion) ∧
    (∀ (ch : String → Option ℚ) (det : String → Option SegDetails) (rnd : Rand)
       (st : Stream) (s : Sensor),
      (cascadeStep ch det rnd st s).1.pressure
        = toFixed 2 (max 0 (smooth (some s.pressure)
            ((cascadeStep ch det rnd st s).2.pressure
              + noiseP (damageOf (healthOf ch (segmentIdOf s.id))) rnd.rP))) ∧
      (cascadeStep ch det rnd st s).1.flow
        = toFixed 1 (max 0 (smooth (some s.flow)
            ((cascadeStep ch det rnd st s).2.flow
              + noiseF (damageOf (healthOf ch (segmentIdOf s.id))) rnd.rF))) ∧
      (cascadeStep ch det rnd st s).1.temp
        = toFixed 1 (smooth (some s.temp)
            (32 + damageOf (healthOf ch (segmentIdOf s.id)) * 5 + (rnd.rT - 1 / 2))) ∧
      (cascadeStep ch det rnd st s).1.vibration
        = toFixed 3 (smooth (some s.vibration)
            (vibTarget (hasDriver det (segmentIdOf s.id) "vibration")
                (decide (healthOf ch (segmentIdOf s.id) < 75))
                (isBlockageOf det (segmentIdOf s.id))
                (damageOf (healthOf ch (segmentIdOf s.id)))
              + noiseV (damageOf (healthOf ch (segmentIdOf s.id))) rnd.rV)) ∧
      (cascadeStep ch det rnd st s).1.acoustic
        = some (toFixed 1 (smooth s.acoustic
            (acousticTarget (isLeakOf det (segmentIdOf s.id))
                (isBlockageOf det (segmentIdOf s.id))
                (damageOf (healthOf ch (segmentIdOf s.id)))
              + noiseA (damageOf (healthOf ch (segmentIdOf s.id))) rnd.rA))) ∧
      (cascadeStep ch det rnd st s).1.corrosion
        = toFixed 4 (corrTarget (isCorrosionOf det (segmentIdOf s.id))
            (decide (healthOf ch (segmentIdOf s.id) < 75))
            (damageOf (healthOf ch (segmentIdOf s.id))))) :=
  ⟨fun _ _ => rfl, fun _ => rfl, fun _ _ _ _ _ _ => rfl,
   fun _ _ _ _ _ => ⟨rfl, rfl, rfl, rfl, rfl, rfl⟩⟩

/-- C1 counterexample: the spec's scenario — health C-D = 40 with a "clog"
driver, zero noise — leaves the stream pressure rising at node C
(78.4 → 80.6, backpressure instead of leak drop) but the stream flow still
falls by the leak-loss term `damage * 40 = 24` (355 → 331), because the
blockage branch only overrides `leakPressureDrop`, not `leakFlowLoss`, and
health 40 is critical. -/
theorem clog_critical_still_loses_flow :
    streamsOf chClog detClog rnd0 INITIAL_SENSORS =
      [⟨396 / 5, 355⟩, ⟨392 / 5, 355⟩, ⟨403 / 5, 331⟩, ⟨399 / 5, 331⟩, ⟨79, 331⟩] ∧
    (331 : ℚ) < 355 := by
  have sA : segmentIdOf "SENSOR_A" = "A-B" := by decide
  have sB : segmentIdOf "SENSOR_B" = "B-C" := by decide
  have sC : segmentIdOf "SENSOR_C" = "C-D" := by decide
  have sD : segmentIdOf "SENSOR_D" = "D-E" := by decide
  have sE : segmentIdOf "SENSOR_E" = "D-E" := by decide
  have l1 : isLeakOf detClog "A-B" = false := by decide
  have l2 : isLeakOf detClog "B-C" = false := by decide
  have l3 : isLeakOf detClog "C-D" = false := by decide
  have l4 : isLeakOf detClog "D-E" = false := by decide
  have b1 : isBlockageOf detClog "A-B" = false := by decide
  have b2 : isBlockageOf detClog "B-C" = false := by decide
  have b3 : isBlockageOf detClog "C-D" = true := by decide
  have b4 : isBlockageOf detClog "D-E" = false := by decide
  have h1 : healthOf chClog "A-B" = 100 := by simp [healthOf, chClog, jsOr]
  have h2 : healthOf chClog "B-C" = 100 := by simp [healthOf, chClog, jsOr]
  have h3 : healthOf chClog "C-D" = 40 := by simp [healthOf, chClog, jsOr]
  have h4 : healthOf chClog "D-E" = 100 := by simp [healthOf, chClog, jsOr]
  refine ⟨?_, by norm_num⟩
  simp only [streamsOf, cascadeRun, INITIAL_SENSORS, List.map, cascadeStep,
    sensorA0, sensorB0, sensorC0, sensorD0, sensorE0, sA, sB, sC, sD, sE,
    l1, l2, l3, l4, b1, b2, b3, b4, h1, h2, h3, h4]
  norm_num [damageOf, streamStep, leakPressureDropOf, leakFlowLossOf,
    frictionLoss, sourceStream]

/-- C1 (amended): for a node whose outgoing segment is blockage-like, the
leak pressure drop is suppressed — the stream pressure only gains the
`damage * 5` backpressure and loses the fixed friction — but the leak flow
loss still applies whenever the segment is also leak-like or its health is
critical (below 75); flow is unaffected by the leak-loss term only when
neither holds. -/
theorem blockage_suppresses_pressure_not_flow (ch : String → Option ℚ)
    (det : String → Option SegDetails) (rnd : Rand) (st : Stream) (s : Sensor)
    (hB : isBlockageOf det (segmentIdOf s.id) = true) :
    (cascadeStep ch det rnd st s).2.pressure
        = max 0 (st.pressure + damageOf (healthOf ch (segmentIdOf s.id)) * 5 - frictionLoss) ∧
    (cascadeStep ch det rnd st s).2.flow
        = max 0 (st.flow -
            (if isLeakOf det (segmentIdOf s.id) = true ∨ healthOf ch (segmentIdOf s.id) < 75
             then damageOf (healthOf ch (segmentIdOf s.id)) * 40 else 0)) := by
  constructor
  · simp [cascadeStep, streamStep, leakPressureDropOf, hB]
  · simp only [cascadeStep, streamStep, leakFlowLossOf]
    by_cases hc : isLeakOf det (segmentIdOf s.id) = true ∨ healthOf ch (segmentIdOf s.id) < 75
    · rcases hc with hc | hc <;> simp [hc]
    · push_neg at hc
      simp [hc.1, hc.2]

/-- Witness for C1 (amended) at the spec's scenario: node C with the
"Clogging" driver on segment C-D at health 40. -/
theorem blockage_suppresses_pressure_not_flow_witness :
    (cascadeStep chClog detClog (rnd0 0) sourceStream sensorC0).2.pressure
        = max 0 (sourceStream.pressure
            + damageOf (healthOf chClog (segmentIdOf sensorC0.id)) * 5 - frictionLoss) ∧
    (cascadeStep chClog detClog (rnd0 0) sourceStream sensorC0).2.flow
        = max 0 (sourceStream.flow -
            (if isLeakOf detClog (segmentIdOf sensorC0.id) = true
                ∨ healthOf chClog (segmentIdOf sensorC0.id) < 75
             then damageOf (healthOf chClog (segmentIdOf sensorC0.id)) * 40 else 0)) :=
  blockage_suppresses_pressure_not_flow chClog detClog (rnd0 0) sourceStream sensorC0
    (by decide)

/-- C2 counterexample: with every segment at perfect health and zero noise,
the stream leaving node D is 76.8 PSI, but the terminal node E does not
forward it unchanged — it applies the friction loss again and hands on
76.0 PSI. -/
theorem terminal_node_not_forwarding :
    streamsOf chNone detNone rnd0 INITIAL_SENSORS =
      [⟨396 / 5, 355⟩, ⟨392 / 5, 355⟩, ⟨388 / 5, 355⟩, ⟨384 / 5, 355⟩, ⟨76, 355⟩] ∧
    (76 : ℚ) ≠ 384 / 5 := by
  refine ⟨?_, by norm_num⟩
  simp only [streamsOf, cascadeRun, INITIAL_SENSORS, List.map, cascadeStep]
  norm_num [sensorA0, sensorB0, sensorC0, sensorD0, sensorE0, segmentIdOf,
    healthOf, chNone, detNone, jsOr, damageOf, hasDriver, isLeakOf, isBlockageOf,
    streamStep, leakPressureDropOf, leakFlowLossOf, frictionLoss, sourceStream]

/-- C2 (amended): the terminal node SENSOR_E is mapped to segment D-E — the
same segment as SENSOR_D — and applies that segment's friction and
leak/blockage losses to the stream a second time: its stream update is
identical to the one a node with id SENSOR_D would perform, rather than a
pass-through of the state received from upstream. -/
theorem terminal_node_reuses_segment_DE (ch : String → Option ℚ)
    (det : String → Option SegDetails) (rnd : Rand) (st : Stream) (s : Sensor)
    (h : s.id = "SENSOR_E") :
    segmentIdOf s.id = "D-E" ∧
    (cascadeStep ch det rnd st s).2
      = (cascadeStep ch det rnd st { s with id := "SENSOR_D" }).2 := by
  have e : segmentIdOf s.id = segmentIdOf "SENSOR_D" := by rw [h]; decide
  refine ⟨by rw [h]; decide, ?_⟩
  simp only [cascadeStep]
  simp [e]

/-- Witness for C2 (amended) at the initial terminal sensor. -/
theorem terminal_node_reuses_segment_DE_witness :
    segmentIdOf sensorE0.id = "D-E" ∧
    (cascadeStep chNone detNone (rnd0 4) sourceStream sensorE0).2
      = (cascadeStep chNone detNone (rnd0 4) sourceStream { sensorE0 with id := "SENSOR_D" }).2 :=
  terminal_node_reuses_segment_DE chNone detNone (rnd0 4) sourceStream sensorE0 rfl

/-- Helper: rounding half-up to `n` decimals preserves non-negativity. -/
theorem toFixed_nonneg (n : Nat) (q : ℚ) (h : 0 ≤ q) : 0 ≤ toFixed n q := by
  unfold toFixed
  have h1 : (0 : ℤ) ≤ ⌊q * 10 ^ n + 1 / 2⌋ := by
    rw [Int.le_floor]
    push_cast
    positivity
  positivity

/-- Helper: every pair produced by a cascade run has non-negative published
pressure/flow and non-negative outgoing stream pressure/flow. -/
theorem cascadeRun_nonneg (ch : String → Option ℚ) (det : String → Option SegDetails)
    (rnd : Nat → Rand) :
    ∀ (st : Stream) (i : Nat) (prev : List Sensor) (p : Sensor × Stream),
      p ∈ cascadeRun ch det rnd st i prev →
      0 ≤ p.1.pressure ∧ 0 ≤ p.1.flow ∧ 0 ≤ p.2.pressure ∧ 0 ≤ p.2.flow := by
  intro st i prev
  induction prev generalizing st i with
  | nil => intro p hp; simp [cascadeRun] at hp
  | cons s rest ih =>
    intro p hp
    simp only [cascadeRun, List.mem_cons] at hp
    rcases hp with rfl | hp
    · exact ⟨toFixed_nonneg _ _ (le_max_left 0 _), toFixed_nonneg _ _ (le_max_left 0 _),
        le_max_left 0 _, le_max_left 0 _⟩
    · exact ih _ _ p hp

/-- C6: for every health map, driver configuration, noise outcome and
previous reading set, all published pressure and flow values are
non-negative, and the internal stream pressure and flow handed to the next
node are clamped non-negative after each node's losses. -/
theorem readings_nonnegative (ch : String → Option ℚ) (det : String → Option SegDetails)
    (rnd : Nat → Rand) (prev : List Sensor) :
    (∀ s ∈ simulateFluidMetrics ch det rnd prev, 0 ≤ s.pressure ∧ 0 ≤ s.flow) ∧
    (∀ st ∈ streamsOf ch det rnd prev, 0 ≤ st.pressure ∧ 0 ≤ st.flow) := by
  constructor
  · intro s hs
    simp only [simulateFluidMetrics, List.mem_map] at hs
    obtain ⟨p, hp, rfl⟩ := hs
    have hall := cascadeRun_nonneg ch det rnd sourceStream 0 prev p hp
    exact ⟨hall.1, hall.2.1⟩
  · intro st hst
    simp only [streamsOf, List.mem_map] at hst
    obtain ⟨p, hp, rfl⟩ := hst
    have hall := cascadeRun_nonneg ch det rnd sourceStream 0 prev p hp
    exact ⟨hall.2.2.1, hall.2.2.2⟩

/-- Witness for C6 at the initial topology with zero noise. -/
theorem readings_nonnegative_witness :
    0 ≤ (simulateFluidMetrics chNone detNone rnd0 INITIAL_SENSORS).headI.pressure := by
  rcases e : simulateFluidMetrics chNone detNone rnd0 INITIAL_SENSORS with _ | ⟨a, t⟩
  · simp [simulateFluidMetrics, cascadeRun, INITIAL_SENSORS] at e
  · exact ((readings_nonnegative chNone detNone rnd0 INITIAL_SENSORS).1 a
      (by rw [e]; exact List.mem_cons_self a t)).1

/-- C7: appending to the history always appends exactly one entry built from
the first sensor's pressure/flow/temp plus the timestamp; the buffer is
capped at 30, an overflowing append evicts exactly the oldest entry, and the
result is always a suffix (the most recent entries, in order) of the
untruncated chronological list. -/
theorem history_buffer_bounded_fifo (prev : List HistoryEntry) (cs : List Sensor)
    (ts : String) (s0 : Sensor) (h : cs.head? = some s0) :
    ∃ hist, updateHistory prev cs ts = some hist ∧
      hist = jsSliceLast 30 (prev ++ [⟨ts, s0.pressure, s0.flow, s0.temp⟩]) ∧
      hist.length ≤ 30 ∧
      (prev.length < 30 → hist = prev ++ [⟨ts, s0.pressure, s0.flow, s0.temp⟩]) ∧
      (prev.length = 30 → hist = prev.drop 1 ++ [⟨ts, s0.pressure, s0.flow, s0.temp⟩]) ∧
      List.IsSuffix hist (prev ++ [⟨ts, s0.pressure, s0.flow, s0.temp⟩]) := by
  have hu : updateHistory prev cs ts
      = some (jsSliceLast 30 (prev ++ [⟨ts, s0.pressure, s0.flow, s0.temp⟩])) := by
    unfold updateHistory
    rw [h]
  have f1 : (jsSliceLast 30
      (prev ++ [(⟨ts, s0.pressure, s0.flow, s0.temp⟩ : HistoryEntry)])).length ≤ 30 := by
    simp only [jsSliceLast, List.length_drop]
    omega
  have f2 : prev.length < 30 →
      jsSliceLast 30 (prev ++ [(⟨ts, s0.pressure, s0.flow, s0.temp⟩ : HistoryEntry)])
        = prev ++ [⟨ts, s0.pressure, s0.flow, s0.temp⟩] := by
    intro hlt
    have hz : (prev ++ [(⟨ts, s0.pressure, s0.flow, s0.temp⟩ : HistoryEntry)]).length - 30
        = 0 := by
      simp
      omega
    unfold jsSliceLast
    rw [hz, List.drop_zero]
  have f3 : prev.length = 30 →
      jsSliceLast 30 (prev ++ [(⟨ts, s0.pressure, s0.flow, s0.temp⟩ : HistoryEntry)])
        = prev.drop 1 ++ [⟨ts, s0.pressure, s0.flow, s0.temp⟩] := by
    intro heq
    have ho : (prev ++ [(⟨ts, s0.pressure, s0.flow, s0.temp⟩ : HistoryEntry)]).length - 30
        = 1 := by
      simp [heq]
    unfold jsSliceLast
    rw [ho, List.drop_append_of_le_length (by omega)]
  have f4 : List.IsSuffix
      (jsSliceLast 30 (prev ++ [(⟨ts, s0.pressure, s0.flow, s0.temp⟩ : HistoryEntry)]))
      (prev ++ [⟨ts, s0.pressure, s0.flow, s0.temp⟩]) := List.drop_suffix _ _
  exact ⟨_, hu, rfl, f1, f2, f3, f4⟩

/-- Witness for C7: the first active tick's append to an empty history. -/
theorem history_buffer_bounded_fifo_witness :
    ∃ hist, updateHistory [] INITIAL_SENSORS "t0" = some hist ∧
      hist = jsSliceLast 30 ([] ++ [⟨"t0", sensorA0.pressure, sensorA0.flow, sensorA0.temp⟩]) ∧
      hist.length ≤ 30 ∧
      (List.length ([] : List HistoryEntry) < 30 →
        hist = [] ++ [⟨"t0", sensorA0.pressure, sensorA0.flow, sensorA0.temp⟩]) ∧
      (List.length ([] : List HistoryEntry) = 30 →
        hist = List.drop 1 ([] : List HistoryEntry)
          ++ [⟨"t0", sensorA0.pressure, sensorA0.flow, sensorA0.temp⟩]) ∧
      List.IsSuffix hist ([] ++ [⟨"t0", sensorA0.pressure, sensorA0.flow, sensorA0.temp⟩]) :=
  history_buffer_bounded_fifo [] INITIAL_SENSORS "t0" sensorA0 rfl

/-- Helper: with no pending resume timer, elapsing time never changes the run
state. -/
theorem advanceN_unscheduled (live : Bool) (k : Nat) :
    advanceN ⟨live, none⟩ k = ⟨live, none⟩ := by
  induction k with
  | zero => rfl
  | succ k ih =>
    show advance (advanceN ⟨live, none⟩ k) = ⟨live, none⟩
    rw [ih]
    rfl

/-- Helper: a pending resume timer counts down without going live before its
deadline. -/
theorem advanceN_countdown (k m : Nat) (h : k < m) :
    advanceN ⟨false, some m⟩ k = ⟨false, some (m - k)⟩ := by
  induction k with
  | zero => simp [advanceN]
  | succ k ih =>
    have hk : k < m := by omega
    obtain ⟨j, hj⟩ : ∃ j, m - k = j + 2 := ⟨m - k - 2, by omega⟩
    show advance (advanceN ⟨false, some m⟩ k) = ⟨false, some (m - (k + 1))⟩
    rw [ih hk, hj]
    have hj1 : m - (k + 1) = j + 1 := by omega
    rw [hj1]
    rfl

/-- Helper: the resume timer fires exactly at the full start delay. -/
theorem advanceN_fires : advanceN ⟨false, some startDelay⟩ startDelay = ⟨true, none⟩ := by
  decide

/-- C8: a resume request from the paused-with-no-timer state schedules the
transition and the state stays non-live — with ticks suppressed — at every
instant strictly before the 6-unit delay elapses, becoming live exactly when
it does (at which point the returned promise resolves with "started"); a
pause request from a live state takes effect immediately and, with no timer
pending, the state stays paused with ticks suppressed for all later time. -/
theorem run_state_resume_pause (s t : RunCtl) (k j : Nat) (ch : String → Option ℚ)
    (det : String → Option SegDetails) (rnd : Nat → Rand) (sensors : List Sensor)
    (hL : s.isLive = false) (hP : s.pending = none) (hk : k < startDelay)
    (hT : t.isLive = true) (hTP : t.pending = none) :
    (runDiagnostics s).2 = "started" ∧
    (advanceN (runDiagnostics s).1 k).isLive = false ∧
    (advanceN (runDiagnostics s).1 startDelay).isLive = true ∧
    tickGate (advanceN (runDiagnostics s).1 k).isLive ch det rnd sensors = sensors ∧
    (runDiagnostics t).1.isLive = false ∧
    (runDiagnostics t).2 = "paused" ∧
    (advanceN (runDiagnostics t).1 j).isLive = false ∧
    tickGate (advanceN (runDiagnostics t).1 j).isLive ch det rnd sensors = sensors := by
  obtain ⟨sl, sp⟩ := s
  obtain ⟨tl, tp⟩ := t
  dsimp only at hL hP hT hTP
  subst hL
  subst hP
  subst hT
  subst hTP
  have hrs : (runDiagnostics ⟨false, none⟩).1 = ⟨false, some startDelay⟩ := rfl
  have hrt : (runDiagnostics ⟨true, none⟩).1 = ⟨false, none⟩ := rfl
  refine ⟨rfl, ?_, ?_, ?_, rfl, rfl, ?_, ?_⟩
  · rw [hrs, advanceN_countdown k startDelay hk]
  · rw [hrs, advanceN_fires]
  · rw [hrs, advanceN_countdown k startDelay hk]
    rfl
  · rw [hrt, advanceN_unscheduled false j]
  · rw [hrt, advanceN_unscheduled false j]
    rfl

/-- Witness for C8: resume from the initial paused state checked at elapsed
time 5 (< 6), and pause from a live state checked at elapsed time 9. -/
theorem run_state_resume_pause_witness :
    (runDiagnostics ⟨false, none⟩).2 = "started" ∧
    (advanceN (runDiagnostics ⟨false, none⟩).1 5).isLive = false ∧
    (advanceN (runDiagnostics ⟨false, none⟩).1 startDelay).isLive = true ∧
    tickGate (advanceN (runDiagnostics ⟨false, none⟩).1 5).isLive chNone detNone rnd0
      INITIAL_SENSORS = INITIAL_SENSORS ∧
    (runDiagnostics ⟨true, none⟩).1.isLive = false ∧
    (runDiagnostics ⟨true, none⟩).2 = "paused" ∧
    (advanceN (runDiagnostics ⟨true, none⟩).1 9).isLive = false ∧
    tickGate (advanceN (runDiagnostics ⟨true, none⟩).1 9).isLive chNone detNone rnd0
      INITIAL_SENSORS = INITIAL_SENSORS :=
  run_state_resume_pause ⟨false, none⟩ ⟨true, none⟩ 5 9 chNone detNone rnd0 INITIAL_SENSORS
    rfl rfl (by decide) rfl rfl

/-- Helper: health below 75 is exactly damage above 1/4. -/
theorem damage_critical_iff (h : ℚ) : decide (h < 75) = decide (1 / 4 < damageOf h) := by
  have hiff : h < 75 ↔ 1 / 4 < damageOf h := by
    unfold damageOf
    constructor <;> intro <;> linarith
  simp [hiff]

/-- Helper: the vibration target is monotone in the damage factor. -/
theorem vibTargetOfDamage_mono (hasVib isBlockage : Bool) (d1 d2 : ℚ)
    (h0 : 0 ≤ d1) (h12 : d1 ≤ d2) (h1 : d2 ≤ 1) :
    vibTargetOfDamage hasVib isBlockage d1 ≤ vibTargetOfDamage hasVib isBlockage d2 := by
  unfold vibTargetOfDamage vibTarget
  cases hd1 : decide ((1 : ℚ) / 4 < d1) <;> cases hd2 : decide ((1 : ℚ) / 4 < d2) <;>
    simp only [decide_eq_true_eq, decide_eq_false_iff_not] at hd1 hd2 <;>
    cases hasVib <;> cases isBlockage <;> simp <;> linarith

/-- Helper: the corrosion target is monotone in the damage factor. -/
theorem corrTargetOfDamage_mono (isCorrosion : Bool) (d1 d2 : ℚ)
    (h0 : 0 ≤ d1) (h12 : d1 ≤ d2) (h1 : d2 ≤ 1) :
    corrTargetOfDamage isCorrosion d1 ≤ corrTargetOfDamage isCorrosion d2 := by
  unfold corrTargetOfDamage corrTarget
  cases hd1 : decide ((1 : ℚ) / 4 < d1) <;> cases hd2 : decide ((1 : ℚ) / 4 < d2) <;>
    simp only [decide_eq_true_eq, decide_eq_false_iff_not] at hd1 hd2 <;>
    cases isCorrosion <;> simp <;> linarith

/-- Helper: the acoustic target is monotone in the damage factor. -/
theorem acousticTarget_mono (isLeak isBlockage : Bool) (d1 d2 : ℚ)
    (h0 : 0 ≤ d1) (h12 : d1 ≤ d2) (h1 : d2 ≤ 1) :
    acousticTarget isLeak isBlockage d1 ≤ acousticTarget isLeak isBlockage d2 := by
  unfold acousticTarget
  cases isLeak <;> cases isBlockage <;> simp <;> linarith

/-- C9: holding the active driver categories fixed, the engine's vibration,
corrosion and acoustic targets are monotonically non-decreasing in the damage
factor `d = (100 - health) / 100` over `d ∈ [0, 1]` (criticality being
`d > 1/4`, i.e. health < 75). -/
theorem targets_monotone_in_damage (hasVib isLeak isBlockage isCorrosion : Bool)
    (d1 d2 : ℚ) (h0 : 0 ≤ d1) (h12 : d1 ≤ d2) (h1 : d2 ≤ 1) :
    vibTargetOfDamage hasVib isBlockage d1 ≤ vibTargetOfDamage hasVib isBlockage d2 ∧
    corrTargetOfDamage isCorrosion d1 ≤ corrTargetOfDamage isCorrosion d2 ∧
    acousticTarget isLeak isBlockage d1 ≤ acousticTarget isLeak isBlockage d2 :=
  ⟨vibTargetOfDamage_mono hasVib isBlockage d1 d2 h0 h12 h1,
   corrTargetOfDamage_mono isCorrosion d1 d2 h0 h12 h1,
   acousticTarget_mono isLeak isBlockage d1 d2 h0 h12 h1⟩

/-- Witness for C9 at the damage extremes 0 and 1 with no drivers. -/
theorem targets_monotone_in_damage_witness :
    vibTargetOfDamage false false 0 ≤ vibTargetOfDamage false false 1 ∧
    corrTargetOfDamage false 0 ≤ corrTargetOfDamage false 1 ∧
    acousticTarget false false 0 ≤ acousticTarget false false 1 :=
  targets_monotone_in_damage false false false false 0 1 (by norm_num) (by norm_num)
    (by norm_num)

/-- Helper: a cascade step only reads the health map through the looked-up
health of the node's segment. -/
theorem cascadeStep_health_congr (ch1 ch2 : String → Option ℚ)
    (det : String → Option SegDetails) (rnd : Rand) (st : Stream) (s : Sensor)
    (h : healthOf ch1 (segmentIdOf s.id) = healthOf ch2 (segmentIdOf s.id)) :
    cascadeStep ch1 det rnd st s = cascadeStep ch2 det rnd st s := by
  simp only [cascadeStep]
  rw [h]

/-- Helper: two health maps whose looked-up values agree everywhere drive
identical cascade runs. -/
theorem cascadeRun_health_congr (ch1 ch2 : String → Option ℚ)
    (det : String → Option SegDetails) (rnd : Nat → Rand)
    (h : ∀ seg, healthOf ch1 seg = healthOf ch2 seg) :
    ∀ (st : Stream) (i : Nat) (prev : List Sensor),
      cascadeRun ch1 det rnd st i prev = cascadeRun ch2 det rnd st i prev := by
  intro st i prev
  induction prev generalizing st i with
  | nil => rfl
  | cons s rest ih =>
    simp only [cascadeRun]
    rw [cascadeStep_health_congr ch1 ch2 det (rnd i) st s (h _), ih]

/-- C10: a delivered health score of exactly 0 behaves like a missing score:
the cascade lookup `currentHealth[seg] || 100` and the ingestion mapping
`details.health_score || 100` both coalesce 0 to 100, so an all-zero health
map drives exactly the same simulation as an empty one, and both sites
publish perfect health. -/
theorem health_zero_treated_as_missing :
    (∀ (det : String → Option SegDetails) (rnd : Nat → Rand) (prev : List Sensor),
      simulateFluidMetrics (fun _ => some 0) det rnd prev
        = simulateFluidMetrics chNone det rnd prev) ∧
    (∀ seg, healthOf (fun _ => some 0) seg = 100) ∧
    (∀ seg, healthOf chNone seg = 100) ∧
    ingestScore { health_score := some 0, drivers := none } = 100 ∧
    ingestScore { health_score := none, drivers := none } = 100 := by
  have hz : ∀ seg, healthOf (fun _ => some 0) seg = 100 := by
    intro seg
    simp [healthOf, jsOr]
  have hn : ∀ seg, healthOf chNone seg = 100 := fun _ => rfl
  refine ⟨?_, hz, hn, by simp [ingestScore, jsOr], rfl⟩
  intro det rnd prev
  unfold simulateFluidMetrics
  rw [cascadeRun_health_congr _ chNone det rnd (fun seg => (hz seg).trans (hn seg).symm)]

end Pipeline
